import Mathlib

set_option maxRecDepth 100000

/-!
Formal model of `ai-commit.go`: a command-line tool that builds a prompt
from the staged git diff and asks the Gemini API for a commit message.
Pure string-formatting code is embedded directly; the effectful `main`
is embedded as a function from an input record (environment variable,
command-line arguments, results of the external collaborators) to the
ordered list of externally visible events it performs.
-/

/-- Model of Go `fmt.Sprintf` restricted to format strings whose only
verbs are `%s` (the only verbs appearing in the formats used by the
program). Scans the format left to right; each `%s` consumes the next
argument and splices its characters in verbatim (Go does not rescan the
spliced text); a `%s` with no argument left renders Go's
`%!s(MISSING)`. -/
def sprintfS : List Char → List String → List Char
  | [], _ => []
  | '%' :: 's' :: rest, a :: args => a.data ++ sprintfS rest args
  | '%' :: 's' :: rest, [] => "%!s(MISSING)".data ++ sprintfS rest []
  | c :: rest, args => c :: sprintfS rest args

/-- `fmt.Sprintf` with one argument. -/
def sprintf1 (format a : String) : String :=
  String.mk (sprintfS format.data [a])

/-- `fmt.Sprintf` with two arguments. -/
def sprintf2 (format a b : String) : String :=
  String.mk (sprintfS format.data [a, b])

/-- The character list contains no percent sign (hence no format verb). -/
def noPct (l : List Char) : Bool := l.all (fun c => !(c == '%'))

theorem sprintfS_cons_ne (c : Char) (rest : List Char) (args : List String)
    (hc : c ≠ '%') : sprintfS (c :: rest) args = c :: sprintfS rest args := by
  simp [sprintfS, hc]

theorem sprintfS_verb (rest : List Char) (a : String) (args : List String) :
    sprintfS ('%' :: 's' :: rest) (a :: args) = a.data ++ sprintfS rest args := rfl

theorem sprintfS_noPct_append (l m : List Char) (args : List String)
    (h : noPct l = true) : sprintfS (l ++ m) args = l ++ sprintfS m args := by
  induction l with
  | nil => simp
  | cons c t ih =>
    simp only [noPct, List.all_cons, Bool.and_eq_true, Bool.not_eq_true',
      beq_eq_false_iff_ne, ne_eq] at h
    rw [List.cons_append, sprintfS_cons_ne c (t ++ m) args h.1, ih h.2, List.cons_append]

theorem sprintfS_noPct_id (l : List Char) (args : List String)
    (h : noPct l = true) : sprintfS l args = l := by
  have h2 := sprintfS_noPct_append l [] args h
  simp only [List.append_nil] at h2
  rw [h2]
  simp [sprintfS]

/-- The fixed instruction template (`promptTemplate` in the source), a Go
raw-string literal with two `%s` substitution points: the optional hint
block and the diff text. -/
def promptTemplate : String := "You are an AI assistant specialized in generating concise, single-line Conventional Commit messages from git diffs.\nYour **sole task** is to produce a commit message.\nThe **primary and strongly preferred output** is a single line adhering to this exact format:\n<emoji> <type>(<scope>): <short description>\ne.g., 🐛 fix(parser): Correct off-by-one error in tokenization\n\n**Body and Footer (AVOID unless absolutely CRITICAL):**\n*   Only include a body or footer if the changes are exceptionally complex AND a single subject line is **demonstrably insufficient** to convey a **vital aspect** (e.g., a significant BREAKING CHANGE that cannot be summarized or hinted at, or an essential issue link).\n*   **Your default behavior must be to summarize everything into the single subject line.**\n*   If unavoidable, separate the body/footer with blank lines as per the specification.\n\nAvailable types and their emojis (choose one for the subject line):\n- feat: ✨ (A new feature)\n- fix: 🐛 (A bug fix)\n- docs: 📚 (Documentation only changes)\n- style: 💎 (Changes that do not affect the meaning of the code)\n- refactor: ♻️ (Code change that neither fixes a bug nor adds a feature)\n- perf: ⚡️ (Code change that improves performance)\n- test: ✅ (Adding or correcting tests)\n- build: 📦 (Changes to build system or external dependencies)\n- ci: ⚙️ (Changes to CI configuration)\n- chore: 🧹 (Other changes not modifying src or test files)\n- revert: ⏪ (Reverts a previous commit)\n\nGuidelines for the **single subject line**:\n1.  **Summarize the Core Change**: Identify the primary purpose/goal of the entire diff.\n2.  **Imperative Mood**: Start with a verb (e.g., 'Add', 'Fix', 'Update', 'Refactor').\n3.  **Conciseness**: Aim for 50-72 characters. Be brief but informative.\n4.  **No Period**: Do not end the subject line with a period.\n5.  **Scope (Optional)**: If applicable, a noun describing the affected area (e.g., 'api', 'ui', 'auth').\n6.  **Emoji & Type**: Select the most fitting type and its emoji.\n7.  **Focus**: Prioritize the overall *intent* and *impact*, not granular file-by-file details. Distill the essence of the changes.%s\nHere is the git diff of the changes:\n\\\\\\ diff\n%s\n\\\\\\ diff\nBased ONLY on the diff provided, generate the commit message.\n**Your response should be ONLY the commit message itself, with NO additional text, explanation, or markdown formatting surrounding it.**\n**Strive for a single line. Every time.**"

/-- The literal delimiter line of the template that fences the diff
payload (three backslashes, a space, and the word diff). -/
def diffMarker : String := "\\\\\\ diff"

/-- Template text before the hint substitution point. -/
def tplPre : String := "You are an AI assistant specialized in generating concise, single-line Conventional Commit messages from git diffs.\nYour **sole task** is to produce a commit message.\nThe **primary and strongly preferred output** is a single line adhering to this exact format:\n<emoji> <type>(<scope>): <short description>\ne.g., 🐛 fix(parser): Correct off-by-one error in tokenization\n\n**Body and Footer (AVOID unless absolutely CRITICAL):**\n*   Only include a body or footer if the changes are exceptionally complex AND a single subject line is **demonstrably insufficient** to convey a **vital aspect** (e.g., a significant BREAKING CHANGE that cannot be summarized or hinted at, or an essential issue link).\n*   **Your default behavior must be to summarize everything into the single subject line.**\n*   If unavoidable, separate the body/footer with blank lines as per the specification.\n\nAvailable types and their emojis (choose one for the subject line):\n- feat: ✨ (A new feature)\n- fix: 🐛 (A bug fix)\n- docs: 📚 (Documentation only changes)\n- style: 💎 (Changes that do not affect the meaning of the code)\n- refactor: ♻️ (Code change that neither fixes a bug nor adds a feature)\n- perf: ⚡️ (Code change that improves performance)\n- test: ✅ (Adding or correcting tests)\n- build: 📦 (Changes to build system or external dependencies)\n- ci: ⚙️ (Changes to CI configuration)\n- chore: 🧹 (Other changes not modifying src or test files)\n- revert: ⏪ (Reverts a previous commit)\n\nGuidelines for the **single subject line**:\n1.  **Summarize the Core Change**: Identify the primary purpose/goal of the entire diff.\n2.  **Imperative Mood**: Start with a verb (e.g., 'Add', 'Fix', 'Update', 'Refactor').\n3.  **Conciseness**: Aim for 50-72 characters. Be brief but informative.\n4.  **No Period**: Do not end the subject line with a period.\n5.  **Scope (Optional)**: If applicable, a noun describing the affected area (e.g., 'api', 'ui', 'auth').\n6.  **Emoji & Type**: Select the most fitting type and its emoji.\n7.  **Focus**: Prioritize the overall *intent* and *impact*, not granular file-by-file details. Distill the essence of the changes."

/-- Template line between the hint substitution point and the opening
diff delimiter. -/
def tplMidA : String := "\nHere is the git diff of the changes:\n"

/-- Template text between the two substitution points: introduction line
followed by the opening diff delimiter. -/
def tplMid : String := tplMidA ++ diffMarker ++ "\n"

/-- Closing instructions of the template, after the closing diff
delimiter. -/
def tplPostB : String := "Based ONLY on the diff provided, generate the commit message.\n**Your response should be ONLY the commit message itself, with NO additional text, explanation, or markdown formatting surrounding it.**\n**Strive for a single line. Every time.**"

/-- Template text after the diff substitution point: closing diff
delimiter followed by the final instructions. -/
def tplPost : String := "\n" ++ diffMarker ++ "\n" ++ tplPostB

theorem strData_append (s t : String) : (s ++ t).data = s.data ++ t.data := by
  cases s
  cases t
  rfl

theorem strExt {s t : String} (h : s.data = t.data) : s = t := by
  cases s
  cases t
  exact congrArg String.mk h

theorem promptTemplate_split :
    promptTemplate.data =
      tplPre.data ++ ('%' :: 's' :: (tplMid.data ++ ('%' :: 's' :: tplPost.data))) := by
  have h : (promptTemplate.data ==
      tplPre.data ++ ('%' :: 's' :: (tplMid.data ++ ('%' :: 's' :: tplPost.data)))) = true := by
    decide
  exact eq_of_beq h

theorem sprintf2_eval (a b : String) :
    sprintf2 promptTemplate a b = tplPre ++ a ++ tplMid ++ b ++ tplPost := by
  have h1 : noPct tplPre.data = true := by decide
  have h2 : noPct tplMid.data = true := by decide
  have h3 : noPct tplPost.data = true := by decide
  apply strExt
  show (sprintfS promptTemplate.data [a, b]) = _
  rw [promptTemplate_split]
  rw [sprintfS_noPct_append _ _ _ h1, sprintfS_verb,
    sprintfS_noPct_append _ _ _ h2, sprintfS_verb, sprintfS_noPct_id _ _ h3]
  simp [strData_append, List.append_assoc]

/-- Go `strings.Join(elems, sep)`: concatenates the elements with the
separator between consecutive elements. -/
def goJoin (elems : List String) (sep : String) : String :=
  match elems with
  | [] => ""
  | x :: xs => xs.foldl (fun acc e => acc ++ sep ++ e) x

/-- The characters Go `unicode.IsSpace` reports as white space (Latin-1
set plus the Unicode space separators), used by `strings.TrimSpace`. -/
def goIsSpace (c : Char) : Bool :=
  c == ' ' || c == '\t' || c == '\n' || c == '\x0b' || c == '\x0c' || c == '\r' ||
    c == '\u0085' || c == '\u00a0' || c == '\u1680' || c == '\u2000' || c == '\u2001' ||
    c == '\u2002' || c == '\u2003' || c == '\u2004' || c == '\u2005' || c == '\u2006' ||
    c == '\u2007' || c == '\u2008' || c == '\u2009' || c == '\u200a' || c == '\u2028' ||
    c == '\u2029' || c == '\u202f' || c == '\u205f' || c == '\u3000'

/-- Go `strings.TrimSpace`: removes leading and trailing white space. -/
def trimSpace (s : String) : String :=
  String.mk (((s.data.dropWhile goIsSpace).reverse.dropWhile goIsSpace).reverse)

/-- The hint wrapper format string used for user-supplied arguments
(the Go raw-string literal passed to `fmt.Sprintf` in `main`). -/
def hintFormat : String := "User-provided hint/context for this commit: %s\nPlease take this hint into account when generating the commit message.\n"

/-- The fixed sentence of the hint paragraph before the hint text. -/
def hintHeader : String := "User-provided hint/context for this commit: "

/-- The fixed sentence of the hint paragraph after the hint text. -/
def hintTrailer : String := "\nPlease take this hint into account when generating the commit message.\n"

theorem hintFormat_split :
    hintFormat.data = hintHeader.data ++ ('%' :: 's' :: hintTrailer.data) := by
  decide

theorem sprintf1_eval (a : String) :
    sprintf1 hintFormat a = hintHeader ++ a ++ hintTrailer := by
  have h1 : noPct hintHeader.data = true := by decide
  have h3 : noPct hintTrailer.data = true := by decide
  apply strExt
  show (sprintfS hintFormat.data [a]) = _
  rw [hintFormat_split]
  rw [sprintfS_noPct_append _ _ _ h1, sprintfS_verb, sprintfS_noPct_id _ _ h3]
  simp [strData_append, List.append_assoc]

/-- The `additionalContext` value computed by `main` from the
command-line arguments (`os.Args[1:]`, here `args`): empty when no
argument was given, otherwise a newline followed by the hint paragraph
wrapping the space-joined arguments. -/
def additionalContext (args : List String) : String :=
  if args.length > 0 then
    "\n" ++ sprintf1 hintFormat (goJoin args " ")
  else ""

/-- The `promptText` value computed by `main`: the template with the
hint block and the diff text substituted in. -/
def promptText (args : List String) (diff : String) : String :=
  sprintf2 promptTemplate (additionalContext args) diff

/-- `hasPre pat l` tests whether `pat` is a prefix of `l`. -/
def hasPre : List Char → List Char → Bool
  | [], _ => true
  | _ :: _, [] => false
  | p :: ps, c :: cs => p == c && hasPre ps cs

/-- `hasSub l pat` tests whether `pat` occurs in `l` as a contiguous
substring. -/
def hasSub : List Char → List Char → Bool
  | [], pat => hasPre pat []
  | l@(_ :: t), pat => hasPre pat l || hasSub t pat

/-- Substring occurrence test on strings. -/
def strContains (s pat : String) : Bool := hasSub s.data pat.data

/-- Number of positions of `l` at which `pat` occurs as a contiguous
substring (occurrences may overlap). -/
def countOccur : List Char → List Char → Nat
  | [], _ => 0
  | l@(_ :: t), pat =>
    if hasPre pat l then Nat.succ (countOccur t pat) else countOccur t pat

/-- Number of occurrence positions of `pat` in `s`. -/
def strCount (s pat : String) : Nat := countOccur s.data pat.data

theorem hasPre_append_self (p m : List Char) : hasPre p (p ++ m) = true := by
  induction p with
  | nil => simp [hasPre]
  | cons c t ih => simp [hasPre, ih]

theorem hasSub_of_hasPre (l pat : List Char) (h : hasPre pat l = true) :
    hasSub l pat = true := by
  cases l with
  | nil => simpa [hasSub] using h
  | cons c t => simp [hasSub, h]

theorem hasSub_append_right (l m pat : List Char) (h : hasSub m pat = true) :
    hasSub (l ++ m) pat = true := by
  induction l with
  | nil => simpa using h
  | cons c t ih => simp [hasSub, ih]

theorem strContains_append_mid (x pat y : String) :
    strContains (x ++ pat ++ y) pat = true := by
  show hasSub (x ++ pat ++ y).data pat.data = true
  rw [strData_append, strData_append, List.append_assoc]
  exact hasSub_append_right _ _ _
    (hasSub_of_hasPre _ _ (hasPre_append_self pat.data y.data))

/-- The ten spinner glyphs of `showSpinner`, in rotation order. -/
def spinnerChars : List String := ["⠋", "⠙", "⠹", "⠸", "⠼", "⠴", "⠦", "⠧", "⠇", "⠏"]

/-- Indexing into the glyph table (`spinnerChars[i]` in the source; the
index is always taken modulo the table length). -/
def spinnerGlyph (i : Nat) : String := spinnerChars.getD i ""

/-- Go `len` of a string: its UTF-8 byte length. -/
def goLen (s : String) : Nat := (s.data.map Char.utf8Size).sum

/-- The single write `showSpinner` performs on the error stream after
observing cancellation: a carriage return, `len(message)+1+1` spaces,
and a carriage return. -/
def spinnerEraseWrite (message : String) : String :=
  "\r" ++ String.mk (List.replicate (goLen message + 1 + 1) ' ') ++ "\r"

/-- The ordered error-stream writes of one `showSpinner` execution that
observes `ticks` ticker firings before the cancellation signal: the
initial `message glyph0` write, one `\r`-prefixed redraw per tick with
the glyph index advanced modulo ten, and finally the erase write. -/
def spinnerWrites (message : String) (ticks : Nat) : List String :=
  (message ++ " " ++ spinnerGlyph 0) ::
    ((List.range ticks).map (fun k => "\r" ++ message ++ " " ++ spinnerGlyph ((k + 1) % 10))) ++
      [spinnerEraseWrite message]

/-- The fixed Gemini model identifier. -/
def geminiModel : String := "gemini-2.5-flash-preview-05-20"

/-- The spinner status message: robot emoji and the model identifier. -/
def spinnerMessage : String := sprintf1 "🤖 %s" geminiModel

/-- Externally visible actions of one `main` execution, in program
order: external process invocations, construction of the prompt string,
creation of the API client, start/cancel/join of the spinner task, the
network call, writes to standard output, and fatal termination
(`log.Fatal`, which writes to the error stream and exits with a
non-zero status). -/
inductive Event where
  | execCmd (name : String) (cmdArgs : List String)
  | promptBuilt (p : String)
  | clientInit
  | spinnerStart
  | network (prompt : String)
  | spinnerCancel
  | spinnerJoin
  | stdout (s : String)
  | fatal (msg : String)
deriving DecidableEq

/-- One invocation's environment and collaborator behaviour: the value
of `GEMINI_API_KEY` (Go `os.Getenv` returns the empty string both when
the variable is unset and when it is set to the empty string), the
command-line arguments `os.Args[1:]`, the results of the two `git`
invocations (standard output on success, error on failure), the result
of creating the API client, and the result of the generation call. -/
structure RunInput where
  geminiApiKey : String
  args : List String
  revParseOut : Except String String
  stagedDiffOut : Except String String
  clientErr : Option String
  genResult : Except String String

/-- Arguments of the repository-membership check invocation. -/
def revParseArgs : List String := ["rev-parse", "--is-inside-work-tree"]

/-- Arguments of the staged-diff collection invocation. -/
def gitDiffArgs : List String := ["diff", "--staged", "--patch", "--unified=5"]

/-- The ordered list of externally visible events performed by `main`
on the given invocation, following the source line by line: check the
credential, run `git rev-parse --is-inside-work-tree` and require its
trimmed output to be `true`, run `git diff --staged --patch --unified=5`
and require a non-empty result, build the prompt, create the client,
start the spinner, make the generation call, cancel the spinner and
wait for it to finish, then either report the generation error fatally
or print the returned text followed by a newline. -/
def run (inp : RunInput) : List Event :=
  if inp.geminiApiKey = "" then
    [Event.fatal "GEMINI_API_KEY environment variable is not set."]
  else
    Event.execCmd "git" revParseArgs ::
      match inp.revParseOut with
      | Except.error e => [Event.fatal ("Error checking git repository status: " ++ e)]
      | Except.ok out =>
        if trimSpace out ≠ "true" then
          [Event.fatal "Not inside a git repository."]
        else
          Event.execCmd "git" gitDiffArgs ::
            match inp.stagedDiffOut with
            | Except.error e => [Event.fatal ("Error getting staged diff: " ++ e)]
            | Except.ok diff =>
              if diff = "" then
                [Event.fatal "No staged files to commit."]
              else
                Event.promptBuilt (promptText inp.args diff) ::
                  Event.clientInit ::
                    match inp.clientErr with
                    | some e => [Event.fatal ("Error creating client: " ++ e)]
                    | none =>
                      Event.spinnerStart :: Event.network (promptText inp.args diff) ::
                        Event.spinnerCancel :: Event.spinnerJoin ::
                          match inp.genResult with
                          | Except.error e =>
                            [Event.fatal ("Error generating commit message : " ++ e)]
                          | Except.ok t => [Event.stdout (t ++ "\n")]

/-- Concatenation of everything the run writes to standard output. -/
def stdoutOf : List Event → String
  | [] => ""
  | Event.stdout s :: rest => s ++ stdoutOf rest
  | _ :: rest => stdoutOf rest

/-- Whether the run terminates through `log.Fatal`. -/
def hasFatal : List Event → Bool
  | [] => false
  | Event.fatal _ :: _ => true
  | _ :: rest => hasFatal rest

/-- Process exit status of the run: `log.Fatal` exits with status 1,
otherwise `main` returns normally with status 0. -/
def runExit (inp : RunInput) : Nat := if hasFatal (run inp) then 1 else 0

/-- Events that put text on an output stream visible after the run
(standard-output writes and the fatal error report). -/
def isOutput : Event → Bool
  | Event.stdout _ => true
  | Event.fatal _ => true
  | _ => false

theorem additionalContext_nil : additionalContext [] = "" := rfl

theorem additionalContext_ne (args : List String) (h : args ≠ []) :
    additionalContext args = "\n" ++ (hintHeader ++ goJoin args " " ++ hintTrailer) := by
  unfold additionalContext
  rw [if_pos (List.length_pos.mpr h), sprintf1_eval]

theorem promptText_nil (diff : String) :
    promptText [] diff =
      (tplPre ++ tplMidA) ++ diffMarker ++ "\n" ++ diff ++ ("\n" ++ diffMarker ++ "\n" ++ tplPostB) := by
  apply strExt
  unfold promptText
  rw [additionalContext_nil, sprintf2_eval]
  simp [strData_append, tplMid, tplPost, List.append_assoc]

theorem promptText_hint (args : List String) (diff : String) (h : args ≠ []) :
    promptText args diff =
      tplPre ++ ("\n" ++ (hintHeader ++ goJoin args " " ++ hintTrailer)) ++
        (tplMidA ++ diffMarker ++ "\n") ++ diff ++ ("\n" ++ diffMarker ++ "\n" ++ tplPostB) := by
  apply strExt
  unfold promptText
  rw [additionalContext_ne args h, sprintf2_eval]
  simp [strData_append, tplMid, tplPost, List.append_assoc]

theorem promptText_hint_mid (args : List String) (diff : String) (h : args ≠ []) :
    promptText args diff =
      (tplPre ++ "\n") ++ hintHeader ++
        (goJoin args " " ++ hintTrailer ++ tplMid ++ diff ++ tplPost) := by
  apply strExt
  unfold promptText
  rw [additionalContext_ne args h, sprintf2_eval]
  simp [strData_append, tplMid, tplPost, List.append_assoc]

theorem run_key_missing (inp : RunInput) (hkey : inp.geminiApiKey = "") :
    run inp = [Event.fatal "GEMINI_API_KEY environment variable is not set."] := by
  simp [run, hkey]

theorem run_not_repo (inp : RunInput) (out : String) (hkey : inp.geminiApiKey ≠ "")
    (hrev : inp.revParseOut = Except.ok out) (htrim : trimSpace out ≠ "true") :
    run inp = [Event.execCmd "git" revParseArgs, Event.fatal "Not inside a git repository."] := by
  simp [run, hkey, hrev, htrim]

theorem run_empty_diff (inp : RunInput) (out : String) (hkey : inp.geminiApiKey ≠ "")
    (hrev : inp.revParseOut = Except.ok out) (htrim : trimSpace out = "true")
    (hdiff : inp.stagedDiffOut = Except.ok "") :
    run inp = [Event.execCmd "git" revParseArgs, Event.execCmd "git" gitDiffArgs,
      Event.fatal "No staged files to commit."] := by
  simp [run, hkey, hrev, htrim, hdiff]

theorem run_full (inp : RunInput) (out d : String) (hkey : inp.geminiApiKey ≠ "")
    (hrev : inp.revParseOut = Except.ok out) (htrim : trimSpace out = "true")
    (hdiff : inp.stagedDiffOut = Except.ok d) (hd : d ≠ "") (hcl : inp.clientErr = none) :
    run inp = [Event.execCmd "git" revParseArgs, Event.execCmd "git" gitDiffArgs,
      Event.promptBuilt (promptText inp.args d), Event.clientInit, Event.spinnerStart,
      Event.network (promptText inp.args d), Event.spinnerCancel, Event.spinnerJoin] ++
      (match inp.genResult with
       | Except.error e => [Event.fatal ("Error generating commit message : " ++ e)]
       | Except.ok t => [Event.stdout (t ++ "\n")]) := by
  simp [run, hkey, hrev, htrim, hdiff, hd, hcl]

theorem run_shape (inp : RunInput) :
    run inp = [Event.fatal "GEMINI_API_KEY environment variable is not set."] ∨
    (∃ e, run inp = [Event.execCmd "git" revParseArgs,
      Event.fatal ("Error checking git repository status: " ++ e)]) ∨
    run inp = [Event.execCmd "git" revParseArgs, Event.fatal "Not inside a git repository."] ∨
    (∃ e, run inp = [Event.execCmd "git" revParseArgs, Event.execCmd "git" gitDiffArgs,
      Event.fatal ("Error getting staged diff: " ++ e)]) ∨
    run inp = [Event.execCmd "git" revParseArgs, Event.execCmd "git" gitDiffArgs,
      Event.fatal "No staged files to commit."] ∨
    (∃ d e, run inp = [Event.execCmd "git" revParseArgs, Event.execCmd "git" gitDiffArgs,
      Event.promptBuilt (promptText inp.args d), Event.clientInit,
      Event.fatal ("Error creating client: " ++ e)]) ∨
    (∃ d e, run inp = [Event.execCmd "git" revParseArgs, Event.execCmd "git" gitDiffArgs,
      Event.promptBuilt (promptText inp.args d), Event.clientInit, Event.spinnerStart,
      Event.network (promptText inp.args d), Event.spinnerCancel, Event.spinnerJoin,
      Event.fatal ("Error generating commit message : " ++ e)]) ∨
    (∃ d t, inp.genResult = Except.ok t ∧
      run inp = [Event.execCmd "git" revParseArgs, Event.execCmd "git" gitDiffArgs,
        Event.promptBuilt (promptText inp.args d), Event.clientInit, Event.spinnerStart,
        Event.network (promptText inp.args d), Event.spinnerCancel, Event.spinnerJoin,
        Event.stdout (t ++ "\n")]) := by
  by_cases hkey : inp.geminiApiKey = ""
  · exact Or.inl (by simp [run, hkey])
  cases hrev : inp.revParseOut with
  | error e => exact Or.inr (Or.inl ⟨e, by simp [run, hkey, hrev]⟩)
  | ok out =>
    by_cases htrim : trimSpace out = "true"
    · cases hdiff : inp.stagedDiffOut with
      | error e =>
        refine Or.inr (Or.inr (Or.inr (Or.inl ⟨e, ?_⟩)))
        simp [run, hkey, hrev, htrim, hdiff]
      | ok d =>
        by_cases hd : d = ""
        · subst hd
          refine Or.inr (Or.inr (Or.inr (Or.inr (Or.inl ?_))))
          simp [run, hkey, hrev, htrim, hdiff]
        cases hcl : inp.clientErr with
        | some e =>
          refine Or.inr (Or.inr (Or.inr (Or.inr (Or.inr (Or.inl ⟨d, e, ?_⟩)))))
          simp [run, hkey, hrev, htrim, hdiff, hd, hcl]
        | none =>
          cases hgen : inp.genResult with
          | error e =>
            refine Or.inr (Or.inr (Or.inr (Or.inr (Or.inr (Or.inr (Or.inl ⟨d, e, ?_⟩))))))
            simp [run, hkey, hrev, htrim, hdiff, hd, hcl, hgen]
          | ok t =>
            refine Or.inr (Or.inr (Or.inr (Or.inr (Or.inr (Or.inr (Or.inr ⟨d, t, rfl, ?_⟩))))))
            simp [run, hkey, hrev, htrim, hdiff, hd, hcl, hgen]
    · exact Or.inr (Or.inr (Or.inl (by simp [run, hkey, hrev, htrim])))

theorem hasSub_singleton_false (l : List Char) (c0 : Char)
    (h : ∀ c ∈ l, c = '\r' ∨ c = ' ') (h1 : c0 ≠ '\r') (h2 : c0 ≠ ' ') :
    hasSub l [c0] = false := by
  induction l with
  | nil => simp [hasSub, hasPre]
  | cons c t ih =>
    have hc := h c (List.mem_cons_self c t)
    have hbeq : (c0 == c) = false := by
      rcases hc with h3 | h3 <;> subst h3 <;> simp [h1, h2]
    simp [hasSub, hasPre, hbeq, ih fun x hx => h x (List.mem_cons_of_mem c hx)]

theorem spinnerEraseWrite_data (message : String) :
    (spinnerEraseWrite message).data =
      '\r' :: (List.replicate (goLen message + 1 + 1) ' ' ++ ['\r']) := by
  rfl

theorem spinnerEraseWrite_chars (message : String) :
    ∀ c ∈ (spinnerEraseWrite message).data, c = '\r' ∨ c = ' ' := by
  rw [spinnerEraseWrite_data]
  intro c hc
  simp only [List.mem_cons, List.mem_append, List.mem_replicate, List.mem_singleton,
    List.not_mem_nil, or_false] at hc
  tauto

theorem spinnerErase_no_glyph (message : String) :
    ∀ g ∈ spinnerChars, strContains (spinnerEraseWrite message) g = false := by
  intro g hg
  have hchars := spinnerEraseWrite_chars message
  simp only [spinnerChars, List.mem_cons, List.not_mem_nil, or_false] at hg
  rcases hg with h | h | h | h | h | h | h | h | h | h <;> subst h <;>
    exact hasSub_singleton_false _ _ hchars (by decide) (by decide)

theorem list_length_le_sizes (l : List Char) : l.length ≤ (l.map Char.utf8Size).sum := by
  induction l with
  | nil => simp
  | cons c t ih =>
    have hc : 1 ≤ c.utf8Size := Char.utf8Size_pos c
    simp only [List.length_cons, List.map_cons, List.sum_cons]
    omega

theorem strLength_le_goLen (s : String) : s.length ≤ goLen s :=
  list_length_le_sizes s.data

theorem spinnerGlyph_length (i : Nat) : (spinnerGlyph i).length ≤ 1 := by
  by_cases h : i < 10
  · interval_cases i <;> decide
  · rw [spinnerGlyph, List.getD_eq_default]
    · decide
    · simp only [spinnerChars, List.length_cons, List.length_nil]
      omega

theorem spinnerLine_le_spaces (message : String) (i : Nat) :
    (message ++ " " ++ spinnerGlyph i).length ≤ goLen message + 1 + 1 := by
  have h1 := strLength_le_goLen message
  have h2 := spinnerGlyph_length i
  have hone : (" " : String).length = 1 := rfl
  have h3 : (message ++ " " ++ spinnerGlyph i).length =
      message.length + 1 + (spinnerGlyph i).length := by
    simp [String.length_append, hone]
  omega

theorem spinnerWrites_last (message : String) (ticks : Nat) :
    (spinnerWrites message ticks).getLast? = some (spinnerEraseWrite message) := by
  show ((message ++ " " ++ spinnerGlyph 0) ::
    (((List.range ticks).map fun k => "\r" ++ message ++ " " ++ spinnerGlyph ((k + 1) % 10)) ++
      [spinnerEraseWrite message])).getLast? = _
  rw [show ∀ (a : String) (l : List String) (b : String),
      a :: (l ++ [b]) = (a :: l) ++ [b] from fun a l b => rfl]
  exact List.getLast?_concat _

/-- C1: if the staged diff obtained from git is empty, the run
terminates fatally (exit status 1) and neither constructs a prompt
string nor makes a network call to the generation service. -/
theorem emptyDiffFatalBeforePromptAndNetwork (inp : RunInput) (out : String)
    (hkey : inp.geminiApiKey ≠ "") (hrev : inp.revParseOut = Except.ok out)
    (htrim : trimSpace out = "true") (hdiff : inp.stagedDiffOut = Except.ok "") :
    runExit inp = 1 ∧
    (∀ p, Event.promptBuilt p ∉ run inp) ∧
    (∀ p, Event.network p ∉ run inp) := by
  have hrun := run_empty_diff inp out hkey hrev htrim hdiff
  refine ⟨?_, ?_, ?_⟩
  · simp [runExit, hrun, hasFatal]
  · intro p
    simp [hrun]
  · intro p
    simp [hrun]

/-- Witness for C1: a concrete run with the credential set, a
repository confirmed, and an empty staged diff. -/
theorem emptyDiffFatalBeforePromptAndNetworkWitness :
    runExit ⟨"k", [], Except.ok "true", Except.ok "", none, Except.ok "m"⟩ = 1 ∧
    Event.promptBuilt "p" ∉ run ⟨"k", [], Except.ok "true", Except.ok "", none, Except.ok "m"⟩ ∧
    Event.network "p" ∉ run ⟨"k", [], Except.ok "true", Except.ok "", none, Except.ok "m"⟩ := by
  have h := emptyDiffFatalBeforePromptAndNetwork
    ⟨"k", [], Except.ok "true", Except.ok "", none, Except.ok "m"⟩ "true"
    (by decide) rfl (by decide) rfl
  exact ⟨h.1, h.2.1 "p", h.2.2 "p"⟩

/-- C2: if the credential environment variable is unset or empty (Go
`os.Getenv` returns the empty string in both cases), the run terminates
fatally at once: its whole event list is the fatal report, so no
external process — in particular neither git invocation — is ever
executed. -/
theorem missingKeyFatalBeforeGit (inp : RunInput) (hkey : inp.geminiApiKey = "") :
    run inp = [Event.fatal "GEMINI_API_KEY environment variable is not set."] ∧
    runExit inp = 1 ∧
    (∀ name cmdArgs, Event.execCmd name cmdArgs ∉ run inp) := by
  have hrun := run_key_missing inp hkey
  refine ⟨hrun, ?_, ?_⟩
  · simp [runExit, hrun, hasFatal]
  · intro name cmdArgs
    simp [hrun]

/-- Witness for C2: a concrete run with the credential empty. -/
theorem missingKeyFatalBeforeGitWitness :
    run ⟨"", [], Except.ok "true", Except.ok "d", none, Except.ok "m"⟩ =
      [Event.fatal "GEMINI_API_KEY environment variable is not set."] ∧
    runExit ⟨"", [], Except.ok "true", Except.ok "d", none, Except.ok "m"⟩ = 1 ∧
    Event.execCmd "git" revParseArgs ∉
      run ⟨"", [], Except.ok "true", Except.ok "d", none, Except.ok "m"⟩ := by
  have h := missingKeyFatalBeforeGit
    ⟨"", [], Except.ok "true", Except.ok "d", none, Except.ok "m"⟩ rfl
  exact ⟨h.1, h.2.1, h.2.2 "git" revParseArgs⟩

/-- C3: with no command-line arguments the hint substitution point
receives the empty string, the composed prompt is exactly the fixed
template text with the diff spliced verbatim between the two literal
diff delimiter lines, and no hint paragraph occurs anywhere in the
fixed template text (neither before the opening delimiter nor after the
closing one), so the only way the prompt could mention the hint header
is inside the diff payload itself. -/
theorem promptNoHintDiffBetweenMarkers (diff : String) (hdiff : diff ≠ "") :
    additionalContext [] = "" ∧
    promptText [] diff =
      (tplPre ++ tplMidA) ++ diffMarker ++ "\n" ++ diff ++
        ("\n" ++ diffMarker ++ "\n" ++ tplPostB) ∧
    strContains (tplPre ++ tplMidA ++ diffMarker) hintHeader = false ∧
    strContains ("\n" ++ diffMarker ++ "\n" ++ tplPostB) hintHeader = false :=
  ⟨additionalContext_nil, promptText_nil diff, by decide, by decide⟩

/-- Witness for C3: the concrete one-line diff of end-to-end scenario A. -/
theorem promptNoHintDiffBetweenMarkersWitness :
    additionalContext [] = "" ∧
    promptText [] "+foo\n-bar\n" =
      (tplPre ++ tplMidA) ++ diffMarker ++ "\n" ++ "+foo\n-bar\n" ++
        ("\n" ++ diffMarker ++ "\n" ++ tplPostB) ∧
    strContains (tplPre ++ tplMidA ++ diffMarker) hintHeader = false ∧
    strContains ("\n" ++ diffMarker ++ "\n" ++ tplPostB) hintHeader = false :=
  promptNoHintDiffBetweenMarkers "+foo\n-bar\n" (by decide)

/-- C4: with a non-empty space-joined argument text the composed prompt
is the fixed template with exactly one hint paragraph — a newline, the
fixed header sentence, the joined text verbatim, and the fixed trailer
sentence — substituted in, and that paragraph sits before the two diff
delimiter lines: the fixed text up to and including the header contains
exactly one header occurrence and no delimiter, the fixed hint trailer
and the fixed text after the diff contain no further header occurrence,
and the delimiters appear only after the paragraph in the
decomposition. -/
theorem promptHintParagraphBeforeMarkers (args : List String) (diff : String)
    (hargs : args ≠ []) (hjoin : goJoin args " " ≠ "") :
    promptText args diff =
      tplPre ++ ("\n" ++ (hintHeader ++ goJoin args " " ++ hintTrailer)) ++
        (tplMidA ++ diffMarker ++ "\n") ++ diff ++
        ("\n" ++ diffMarker ++ "\n" ++ tplPostB) ∧
    strCount (tplPre ++ "\n" ++ hintHeader) hintHeader = 1 ∧
    strContains (hintTrailer ++ tplMidA ++ diffMarker ++ "\n") hintHeader = false ∧
    strContains ("\n" ++ diffMarker ++ "\n" ++ tplPostB) hintHeader = false ∧
    strContains (tplPre ++ "\n" ++ hintHeader) diffMarker = false ∧
    strContains hintTrailer diffMarker = false :=
  ⟨promptText_hint args diff hargs, by decide, by decide, by decide, by decide, by decide⟩

/-- Witness for C4: a concrete run with one argument and a one-line
diff. -/
theorem promptHintParagraphBeforeMarkersWitness :
    promptText ["speed", "up"] "+x\n" =
      tplPre ++ ("\n" ++ (hintHeader ++ goJoin ["speed", "up"] " " ++ hintTrailer)) ++
        (tplMidA ++ diffMarker ++ "\n") ++ "+x\n" ++
        ("\n" ++ diffMarker ++ "\n" ++ tplPostB) ∧
    strCount (tplPre ++ "\n" ++ hintHeader) hintHeader = 1 ∧
    strContains (hintTrailer ++ tplMidA ++ diffMarker ++ "\n") hintHeader = false ∧
    strContains ("\n" ++ diffMarker ++ "\n" ++ tplPostB) hintHeader = false ∧
    strContains (tplPre ++ "\n" ++ hintHeader) diffMarker = false ∧
    strContains hintTrailer diffMarker = false :=
  promptHintParagraphBeforeMarkers ["speed", "up"] "+x\n" (by decide) (by decide)

/-- C9: the hint paragraph is included whenever at least one positional
argument is present, regardless of content: with a single empty-string
argument the joined hint text is empty, yet the additional-context
block is the full hint paragraph with the empty hint embedded, and the
composed prompt contains the hint header sentence. -/
theorem emptyStringArgStillHintParagraph (diff : String) :
    goJoin [""] " " = "" ∧
    additionalContext [""] = "\n" ++ (hintHeader ++ "" ++ hintTrailer) ∧
    promptText [""] diff =
      tplPre ++ ("\n" ++ (hintHeader ++ "" ++ hintTrailer)) ++
        (tplMidA ++ diffMarker ++ "\n") ++ diff ++
        ("\n" ++ diffMarker ++ "\n" ++ tplPostB) ∧
    strContains (promptText [""] diff) hintHeader = true := by
  refine ⟨rfl, ?_, ?_, ?_⟩
  · rw [additionalContext_ne [""] (by simp)]
    rfl
  · have h := promptText_hint [""] diff (by simp)
    simpa using h
  · rw [promptText_hint_mid [""] diff (by simp)]
    exact strContains_append_mid _ _ _

/-- C10: if the repository-status invocation succeeds but its trimmed
output is anything other than `true`, the run stops fatally with the
not-inside-a-repository message right after that invocation, and the
diff collection is never executed. -/
theorem revParseNonTrueFatal (inp : RunInput) (out : String)
    (hkey : inp.geminiApiKey ≠ "") (hrev : inp.revParseOut = Except.ok out)
    (htrim : trimSpace out ≠ "true") :
    run inp = [Event.execCmd "git" revParseArgs,
      Event.fatal "Not inside a git repository."] ∧
    runExit inp = 1 ∧
    Event.execCmd "git" gitDiffArgs ∉ run inp := by
  have hrun := run_not_repo inp out hkey hrev htrim
  refine ⟨hrun, ?_, ?_⟩
  · simp [runExit, hrun, hasFatal]
  · simp [hrun, revParseArgs, gitDiffArgs]

/-- Witness for C10: a successful invocation printing `false`. -/
theorem revParseNonTrueFatalWitness :
    run ⟨"k", [], Except.ok "false", Except.ok "d", none, Except.ok "m"⟩ =
      [Event.execCmd "git" revParseArgs, Event.fatal "Not inside a git repository."] ∧
    runExit ⟨"k", [], Except.ok "false", Except.ok "d", none, Except.ok "m"⟩ = 1 ∧
    Event.execCmd "git" gitDiffArgs ∉
      run ⟨"k", [], Except.ok "false", Except.ok "d", none, Except.ok "m"⟩ :=
  revParseNonTrueFatal ⟨"k", [], Except.ok "false", Except.ok "d", none, Except.ok "m"⟩
    "false" (by decide) rfl (by decide)

theorem run_exec_args (inp : RunInput) (name : String) (cmdArgs : List String)
    (h : Event.execCmd name cmdArgs ∈ run inp) :
    name = "git" ∧ (cmdArgs = revParseArgs ∨ cmdArgs = gitDiffArgs) := by
  rcases run_shape inp with h1 | ⟨e, h1⟩ | h1 | ⟨e, h1⟩ | h1 | ⟨d, e, h1⟩ | ⟨d, e, h1⟩ |
    ⟨d, t, hgen, h1⟩ <;> rw [h1] at h <;> simp at h <;> tauto

theorem run_diff_mem (inp : RunInput) (out : String) (hkey : inp.geminiApiKey ≠ "")
    (hrev : inp.revParseOut = Except.ok out) (htrim : trimSpace out = "true") :
    Event.execCmd "git" gitDiffArgs ∈ run inp := by
  cases hdiff : inp.stagedDiffOut with
  | error e => simp [run, hkey, hrev, htrim, hdiff]
  | ok d =>
    by_cases hd : d = ""
    · subst hd
      simp [run, hkey, hrev, htrim, hdiff]
    cases hcl : inp.clientErr with
    | some e => simp [run, hkey, hrev, htrim, hdiff, hd, hcl]
    | none =>
      cases hgen : inp.genResult with
      | error e => simp [run, hkey, hrev, htrim, hdiff, hd, hcl, hgen]
      | ok t => simp [run, hkey, hrev, htrim, hdiff, hd, hcl, hgen]

/-- C8: whenever the run passes the repository check it invokes the
version-control tool for the diff with exactly the arguments selecting
staged changes only, patch output, and five lines of unified context;
and every tool invocation any run ever makes is one of the two fixed
git commands. -/
theorem diffCommandStagedUnified5 (inp : RunInput) (out : String)
    (hkey : inp.geminiApiKey ≠ "") (hrev : inp.revParseOut = Except.ok out)
    (htrim : trimSpace out = "true") :
    Event.execCmd "git" ["diff", "--staged", "--patch", "--unified=5"] ∈ run inp ∧
    (∀ name cmdArgs, Event.execCmd name cmdArgs ∈ run inp →
      name = "git" ∧
        (cmdArgs = ["rev-parse", "--is-inside-work-tree"] ∨
          cmdArgs = ["diff", "--staged", "--patch", "--unified=5"])) := by
  constructor
  · exact run_diff_mem inp out hkey hrev htrim
  · intro name cmdArgs h
    exact run_exec_args inp name cmdArgs h

/-- Witness for C8: a concrete successful run. -/
theorem diffCommandStagedUnified5Witness :
    Event.execCmd "git" ["diff", "--staged", "--patch", "--unified=5"] ∈
      run ⟨"k", [], Except.ok "true", Except.ok "+x\n", none, Except.ok "m"⟩ ∧
    (Event.execCmd "git" revParseArgs ∈
        run ⟨"k", [], Except.ok "true", Except.ok "+x\n", none, Except.ok "m"⟩ →
      "git" = "git" ∧
        (revParseArgs = ["rev-parse", "--is-inside-work-tree"] ∨
          revParseArgs = ["diff", "--staged", "--patch", "--unified=5"])) := by
  have h := diffCommandStagedUnified5
    ⟨"k", [], Except.ok "true", Except.ok "+x\n", none, Except.ok "m"⟩ "true"
    (by decide) rfl (by decide)
  exact ⟨h.1, h.2 "git" revParseArgs⟩

/-- C5: on a run in which the generation call returns text, standard
output is exactly that text followed by a single newline; on every run
that terminates fatally, nothing at all is written to standard
output. -/
theorem stdoutExactOnSuccessEmptyOnFailure (inp : RunInput) :
    (∀ out d t, inp.geminiApiKey ≠ "" → inp.revParseOut = Except.ok out →
      trimSpace out = "true" → inp.stagedDiffOut = Except.ok d → d ≠ "" →
      inp.clientErr = none → inp.genResult = Except.ok t →
      stdoutOf (run inp) = t ++ "\n") ∧
    (hasFatal (run inp) = true → stdoutOf (run inp) = "") := by
  constructor
  · intro out d t hkey hrev htrim hdiff hd hcl hgen
    have hrun := run_full inp out d hkey hrev htrim hdiff hd hcl
    rw [hgen] at hrun
    rw [hrun]
    simp [stdoutOf]
  · intro hf
    rcases run_shape inp with h1 | ⟨e, h1⟩ | h1 | ⟨e, h1⟩ | h1 | ⟨d, e, h1⟩ | ⟨d, e, h1⟩ |
      ⟨d, t, hgen, h1⟩ <;> rw [h1] at hf ⊢ <;> simp [stdoutOf, hasFatal] at hf ⊢

/-- Witness for C5: the success conjunct at a concrete successful run
and the failure conjunct at a concrete failing run. -/
theorem stdoutExactOnSuccessEmptyOnFailureWitness :
    stdoutOf (run ⟨"k", [], Except.ok "true", Except.ok "+x\n", none, Except.ok "msg"⟩) =
      "msg" ++ "\n" ∧
    stdoutOf (run ⟨"", [], Except.ok "true", Except.ok "+x\n", none, Except.ok "msg"⟩) = "" := by
  constructor
  · exact (stdoutExactOnSuccessEmptyOnFailure
      ⟨"k", [], Except.ok "true", Except.ok "+x\n", none, Except.ok "msg"⟩).1
      "true" "+x\n" "msg" (by decide) rfl (by decide) rfl (by decide) rfl rfl
  · exact (stdoutExactOnSuccessEmptyOnFailure
      ⟨"", [], Except.ok "true", Except.ok "+x\n", none, Except.ok "msg"⟩).2 (by decide)

/-- C6: in every run that reaches the network call, the event order is:
the two git invocations, prompt construction, client creation, spinner
start, the network call, then the spinner cancellation signal
immediately followed by the join on the spinner task, and only after
the join the single output event (the printed commit message or the
generation-error fatal report). No output event precedes the join. -/
theorem spinnerJoinBeforeOutput (inp : RunInput) (out d : String)
    (hkey : inp.geminiApiKey ≠ "") (hrev : inp.revParseOut = Except.ok out)
    (htrim : trimSpace out = "true") (hdiff : inp.stagedDiffOut = Except.ok d)
    (hd : d ≠ "") (hcl : inp.clientErr = none) :
    ∃ post,
      run inp = [Event.execCmd "git" revParseArgs, Event.execCmd "git" gitDiffArgs,
        Event.promptBuilt (promptText inp.args d), Event.clientInit, Event.spinnerStart,
        Event.network (promptText inp.args d)] ++
        [Event.spinnerCancel, Event.spinnerJoin] ++ post ∧
      (∀ e ∈ [Event.execCmd "git" revParseArgs, Event.execCmd "git" gitDiffArgs,
        Event.promptBuilt (promptText inp.args d), Event.clientInit, Event.spinnerStart,
        Event.network (promptText inp.args d), Event.spinnerCancel, Event.spinnerJoin],
        isOutput e = false) ∧
      (∀ e ∈ post, isOutput e = true) ∧
      ((∃ e, inp.genResult = Except.error e ∧
        post = [Event.fatal ("Error generating commit message : " ++ e)]) ∨
       (∃ t, inp.genResult = Except.ok t ∧ post = [Event.stdout (t ++ "\n")])) := by
  have hrun := run_full inp out d hkey hrev htrim hdiff hd hcl
  cases hgen : inp.genResult with
  | error e =>
    rw [hgen] at hrun
    refine ⟨[Event.fatal ("Error generating commit message : " ++ e)], ?_, ?_, ?_,
      Or.inl ⟨e, rfl, rfl⟩⟩
    · rw [hrun]
      rfl
    · intro ev hev
      simp only [List.mem_cons, List.not_mem_nil, or_false] at hev
      rcases hev with rfl | rfl | rfl | rfl | rfl | rfl | rfl | rfl <;> rfl
    · intro ev hev
      simp only [List.mem_cons, List.not_mem_nil, or_false] at hev
      rcases hev with rfl <;> rfl
  | ok t =>
    rw [hgen] at hrun
    refine ⟨[Event.stdout (t ++ "\n")], ?_, ?_, ?_, Or.inr ⟨t, rfl, rfl⟩⟩
    · rw [hrun]
      rfl
    · intro ev hev
      simp only [List.mem_cons, List.not_mem_nil, or_false] at hev
      rcases hev with rfl | rfl | rfl | rfl | rfl | rfl | rfl | rfl <;> rfl
    · intro ev hev
      simp only [List.mem_cons, List.not_mem_nil, or_false] at hev
      rcases hev with rfl <;> rfl

/-- Witness for C6: a concrete run reaching the network call
successfully. -/
theorem spinnerJoinBeforeOutputWitness :
    ∃ post,
      run ⟨"k", [], Except.ok "true", Except.ok "+x\n", none, Except.ok "m"⟩ =
        [Event.execCmd "git" revParseArgs, Event.execCmd "git" gitDiffArgs,
          Event.promptBuilt (promptText [] "+x\n"), Event.clientInit, Event.spinnerStart,
          Event.network (promptText [] "+x\n")] ++
          [Event.spinnerCancel, Event.spinnerJoin] ++ post ∧
        (∀ e ∈ [Event.execCmd "git" revParseArgs, Event.execCmd "git" gitDiffArgs,
          Event.promptBuilt (promptText [] "+x\n"), Event.clientInit, Event.spinnerStart,
          Event.network (promptText [] "+x\n"), Event.spinnerCancel, Event.spinnerJoin],
          isOutput e = false) ∧
        (∀ e ∈ post, isOutput e = true) ∧
        ((∃ e, (Except.ok "m" : Except String String) = Except.error e ∧
          post = [Event.fatal ("Error generating commit message : " ++ e)]) ∨
         (∃ t, (Except.ok "m" : Except String String) = Except.ok t ∧
          post = [Event.stdout (t ++ "\n")])) :=
  spinnerJoinBeforeOutput ⟨"k", [], Except.ok "true", Except.ok "+x\n", none, Except.ok "m"⟩
    "true" "+x\n" (by decide) rfl (by decide) rfl (by decide) rfl

/-- C7: after the stop signal the spinner's one final write to the
error stream is a carriage return, `len(message)+1+1` space characters,
and a carriage return; that write is the last element of the write
sequence, contains no spinner glyph, and the number of spaces is at
least the number of characters of the status line it overwrites
(message, separating space, and glyph). -/
theorem spinnerStopErasesLine (message : String) (ticks : Nat) :
    (spinnerWrites message ticks).getLast? = some (spinnerEraseWrite message) ∧
    (spinnerEraseWrite message).data =
      '\r' :: (List.replicate (goLen message + 1 + 1) ' ' ++ ['\r']) ∧
    (∀ g ∈ spinnerChars, strContains (spinnerEraseWrite message) g = false) ∧
    (∀ i, (message ++ " " ++ spinnerGlyph i).length ≤ goLen message + 1 + 1) :=
  ⟨spinnerWrites_last message ticks, spinnerEraseWrite_data message,
    spinnerErase_no_glyph message, fun i => spinnerLine_le_spaces message i⟩

/-- Witness for C7: the spinner with the concrete status message used
by the program, stopped after three ticks, checked against the first
glyph. -/
theorem spinnerStopErasesLineWitness :
    (spinnerWrites spinnerMessage 3).getLast? = some (spinnerEraseWrite spinnerMessage) ∧
    strContains (spinnerEraseWrite spinnerMessage) "⠋" = false ∧
    (spinnerMessage ++ " " ++ spinnerGlyph 0).length ≤ goLen spinnerMessage + 1 + 1 := by
  have h := spinnerStopErasesLine spinnerMessage 3
  exact ⟨h.1, h.2.2.1 "⠋" (by simp [spinnerChars]), h.2.2.2 0⟩
